import Mathlib

/-!
A verification development for the ML-platform orchestration layer
(`src/storage/job_store.py`, `src/storage/endpoint_store.py`, and the five
Lambda-style handlers under `src/lambda_functions/`).

The Python code is shallowly embedded:

* Python scalar/JSON-ish values become the inductive `PyVal`.  A Python
  `float` only ever reaches the store layer through `isinstance` checks and
  `str(...)` (in `_convert_floats_to_decimals`, which computes
  `Decimal(str(obj))`), and Python guarantees that `repr` round-trips floats
  (`float(repr(f)) == f`), so a float is represented by its shortest `repr`
  string.  A `decimal.Decimal` is likewise represented by its digit string.
* The DynamoDB table behind each store becomes an association list from the
  primary-key string to the stored item; `put_item` overwrites, `get_item`
  is a point lookup, `update_item` does a field-level SET (creating the item
  when absent, as DynamoDB does), `delete_item` removes the key.
* Network calls that can raise (DynamoDB transport, ECS, S3) take their
  outcome from an explicit oracle field (`Except String Unit`, the `String`
  being the exception text, or `Option`/`Bool` where the Python function
  already collapses exceptions to `None`/`False` internally).  Each handler
  is then a total Lean function; its totality mirrors the top-level
  `try/except` that converts any uncaught exception into a 500 response.
* `json.dumps` serialization is out of scope: a response body is the
  structured value the handler passes to `json.dumps`.
-/

namespace SagemakerClone

/-- Python values as they flow through the store layer and handler bodies.
A float is identified by its shortest decimal `repr` string, a `Decimal`
by its digit string (see the module comment). -/
inductive PyVal where
  | pyFloat (r : String)
  | pyDecimal (s : String)
  | pyInt (n : Int)
  | pyBool (b : Bool)
  | pyStr (s : String)
  | pyDict (fields : List (String × PyVal))
  | pyList (items : List PyVal)

/-- First value bound to key `k` in an association list (Python `dict`
lookup; handler/store dicts never repeat keys). -/
def lookupField : List (String × PyVal) → String → Option PyVal
  | [], _ => none
  | (k', v) :: rest, k => if k' = k then some v else lookupField rest k

/-- Python `dict.get(k, default)`. -/
def dictGetD (d : List (String × PyVal)) (k : String) (default : PyVal) : PyVal :=
  match lookupField d k with
  | some v => v
  | none => default

/-- The fields of an item (stored items are always dicts). -/
def dictFields : PyVal → List (String × PyVal)
  | .pyDict fs => fs
  | _ => []

mutual

/-- `JobStore._convert_floats_to_decimals` / the identical
`EndpointStore._convert_floats_to_decimals`: recursively replace every
float by `Decimal(str(f))`; in the repr-string model `str(f)` is the
float's identifying string. -/
def convertFloatsToDecimals : PyVal → PyVal
  | .pyFloat r => .pyDecimal r
  | .pyDict fields => .pyDict (convertFloatsFields fields)
  | .pyList items => .pyList (convertFloatsItems items)
  | .pyDecimal s => .pyDecimal s
  | .pyInt n => .pyInt n
  | .pyBool b => .pyBool b
  | .pyStr s => .pyStr s

/-- The dict branch of `_convert_floats_to_decimals`. -/
def convertFloatsFields : List (String × PyVal) → List (String × PyVal)
  | [] => []
  | (k, v) :: rest => (k, convertFloatsToDecimals v) :: convertFloatsFields rest

/-- The list branch of `_convert_floats_to_decimals`. -/
def convertFloatsItems : List PyVal → List PyVal
  | [] => []
  | v :: rest => convertFloatsToDecimals v :: convertFloatsItems rest

end

/-- A DynamoDB table: primary-key value ↦ stored item. -/
abbrev Table := List (String × PyVal)

/-- `put_item`: unconditional overwrite of the key's item. -/
def tablePut (t : Table) (key : String) (item : PyVal) : Table :=
  (key, item) :: t.filter (fun kv => kv.1 != key)

/-- `get_item` point lookup (the `Item` field of the response). -/
def tableGet : Table → String → Option PyVal
  | [], _ => none
  | (k', v) :: rest, k => if k' = k then some v else tableGet rest k

/-- `delete_item`: removes the key (succeeds even when absent). -/
def tableDelete (t : Table) (key : String) : Table :=
  t.filter (fun kv => kv.1 != key)

/-- One `SET k = :v` clause: replace the attribute if present, else append it. -/
def setField (fields : List (String × PyVal)) (k : String) (v : PyVal) :
    List (String × PyVal) :=
  if (lookupField fields k).isSome then
    fields.map (fun kv => if kv.1 = k then (k, v) else kv)
  else
    fields ++ [(k, v)]

/-- Apply the SET clauses of an update expression in order. -/
def applyUpdates (fields : List (String × PyVal)) :
    List (String × PyVal) → List (String × PyVal)
  | [] => fields
  | (k, v) :: rest => applyUpdates (setField fields k v) rest

/-- `update_item` with a SET expression: updates the item's attributes,
creating the item (key attribute plus the SET attributes) when the key is
absent, as DynamoDB does. -/
def tableUpdate (t : Table) (keyName key : String)
    (updates : List (String × PyVal)) : Table :=
  match tableGet t key with
  | some (.pyDict fields) => tablePut t key (.pyDict (applyUpdates fields updates))
  | some v => tablePut t key v
  | none => tablePut t key (.pyDict ((keyName, .pyStr key) :: updates))

/-- `Except` outcome test (used where Python code branches on whether a
call raised). -/
def isOkOutcome : Except String Unit → Bool
  | .ok _ => true
  | .error _ => false

/-! ## Job store (`src/storage/job_store.py`) -/

/-- `f"job-{uuid.uuid4().hex[:8]}"`: `job-` followed by the first 8
characters of the generator's 32-character lowercase-hex output. -/
def jobIdOf (uuidHex : String) : String :=
  "job-" ++ String.mk (uuidHex.toList.take 8)

/-- The item `JobStore.create_job` builds (before float conversion):
`{'job_id': .., 'status': 'pending', 'created_at': .., **job_data}`.
The `**job_data` splice has Python dict-update semantics (later keys
override), which is exactly `applyUpdates`. -/
def jobItem (uuidHex : String) (now : Int)
    (jobData : List (String × PyVal)) : PyVal :=
  .pyDict (applyUpdates
    [("job_id", .pyStr (jobIdOf uuidHex)),
     ("status", .pyStr "pending"),
     ("created_at", .pyInt now)] jobData)

/-- `JobStore.create_job`: generate the id, build the item, convert floats
to decimals, `put_item` it; a put exception is re-raised as
`"DynamoDB error: ..."`.  `putOutcome` is the DynamoDB transport oracle,
`uuidHex` the `uuid4().hex` draw, `now` the `int(time.time())` reading. -/
def createJob (t : Table) (uuidHex : String) (now : Int)
    (jobData : List (String × PyVal)) (putOutcome : Except String Unit) :
    Except String (String × Table) :=
  let jobId := jobIdOf uuidHex
  let item := convertFloatsToDecimals (jobItem uuidHex now jobData)
  match putOutcome with
  | .ok _ => .ok (jobId, tablePut t jobId item)
  | .error e => .error ("DynamoDB error: " ++ e)

/-- `JobStore.get_job`: point read returning the raw `Item` — note that no
decimal-to-float conversion happens on this read; a transport error is
re-raised unchanged. -/
def getJob (t : Table) (jobId : String) (getOutcome : Except String Unit) :
    Except String (Option PyVal) :=
  match getOutcome with
  | .ok _ => .ok (tableGet t jobId)
  | .error e => .error e

/-- `JobStore.update_job_status`: one `update_item` SETting `status` plus
the keyword fields (no float conversion in this store's update); any
exception is caught and reported as `False` with the table unchanged. -/
def updateJobStatus (t : Table) (jobId status : String)
    (kwargs : List (String × PyVal)) (outcome : Except String Unit) :
    Bool × Table :=
  match outcome with
  | .ok _ =>
      (true, tableUpdate t "job_id" jobId (("status", .pyStr status) :: kwargs))
  | .error _ => (false, t)

/-! ## Endpoint store (`src/storage/endpoint_store.py`) -/

/-- The item `EndpointStore.create_endpoint` builds: fixed attribute set
with `''` defaults for the optional fields. -/
def endpointItem (now : Int) (endpointData : List (String × PyVal))
    (name : String) : PyVal :=
  .pyDict [("endpoint_name", .pyStr name),
    ("status", .pyStr "creating"),
    ("created_at", .pyInt now),
    ("job_id", dictGetD endpointData "job_id" (.pyStr "")),
    ("model_s3_path", dictGetD endpointData "model_s3_path" (.pyStr "")),
    ("service_arn", dictGetD endpointData "service_arn" (.pyStr "")),
    ("endpoint_url", dictGetD endpointData "endpoint_url" (.pyStr "")),
    ("task_definition", dictGetD endpointData "task_definition" (.pyStr "")),
    ("target_group_arn", dictGetD endpointData "target_group_arn" (.pyStr ""))]

/-- `EndpointStore.create_endpoint`: a falsy `endpoint_name` raises
`ValueError("endpoint_name is required")` (every call site passes a
string, so falsy means absent, non-string, or `''`); otherwise build the
item, convert floats, and `put_item`, re-raising a put exception as
`"DynamoDB error: ..."`. -/
def createEndpoint (t : Table) (now : Int)
    (endpointData : List (String × PyVal)) (putOutcome : Except String Unit) :
    Except String (String × Table) :=
  match lookupField endpointData "endpoint_name" with
  | some (.pyStr name) =>
      if name = "" then .error "endpoint_name is required"
      else
        let item := convertFloatsToDecimals (endpointItem now endpointData name)
        match putOutcome with
        | .ok _ => .ok (name, tablePut t name item)
        | .error e => .error ("DynamoDB error: " ++ e)
  | _ => .error "endpoint_name is required"

/-- `EndpointStore.get_endpoint`: point read returning the raw `Item`; a
transport error is re-raised unchanged. -/
def getEndpoint (t : Table) (endpointName : String)
    (getOutcome : Except String Unit) : Except String (Option PyVal) :=
  match getOutcome with
  | .ok _ => .ok (tableGet t endpointName)
  | .error e => .error e

/-- `EndpointStore.update_endpoint_status`: one `update_item` SETting
`status` plus the keyword fields, each keyword value passed through
`_convert_floats_to_decimals`; any exception is caught and reported as
`False` with the table unchanged. -/
def updateEndpointStatus (t : Table) (endpointName status : String)
    (kwargs : List (String × PyVal)) (outcome : Except String Unit) :
    Bool × Table :=
  match outcome with
  | .ok _ =>
      (true, tableUpdate t "endpoint_name" endpointName
        (("status", .pyStr status) :: convertFloatsFields kwargs))
  | .error _ => (false, t)

/-- `EndpointStore.delete_endpoint`: `delete_item` on the key; every
backend exception is caught and reported as `False` with the table
unchanged — this store method never raises. -/
def deleteEndpoint (t : Table) (endpointName : String)
    (outcome : Except String Unit) : Bool × Table :=
  match outcome with
  | .ok _ => (true, tableDelete t endpointName)
  | .error _ => (false, t)

/-! ## HTTP-shaped responses -/

/-- An API-Gateway-style handler response; `body` is the structured value
the handler passes to `json.dumps`. -/
structure Response where
  statusCode : Nat
  headers : List (String × String)
  body : PyVal

/-- The header dict every response of `submit_job` and `get_job_status`
carries. -/
def jobCorsHeaders : List (String × String) :=
  [("Content-Type", "application/json"),
   ("Access-Control-Allow-Origin", "*"),
   ("Access-Control-Allow-Headers",
    "Content-Type,X-Amz-Date,Authorization,X-Api-Key,X-Amz-Security-Token"),
   ("Access-Control-Allow-Methods", "GET,POST,OPTIONS")]

/-- The header dict every response of the three endpoint handlers carries
(same set, with DELETE among the allowed methods). -/
def endpointCorsHeaders : List (String × String) :=
  [("Content-Type", "application/json"),
   ("Access-Control-Allow-Origin", "*"),
   ("Access-Control-Allow-Headers",
    "Content-Type,X-Amz-Date,Authorization,X-Api-Key,X-Amz-Security-Token"),
   ("Access-Control-Allow-Methods", "GET,POST,DELETE,OPTIONS")]

/-- Shorthand for the response literals of the two job handlers (each
repeats the same header dict). -/
def mkJobResponse (code : Nat) (body : PyVal) : Response :=
  ⟨code, jobCorsHeaders, body⟩

/-- Shorthand for the response literals of the three endpoint handlers. -/
def mkEndpointResponse (code : Nat) (body : PyVal) : Response :=
  ⟨code, endpointCorsHeaders, body⟩

/-- Value of a response header. -/
def headerValue (r : Response) (k : String) : Option String :=
  match r.headers.find? (fun kv => kv.1 == k) with
  | some kv => some kv.2
  | none => none

/-! ## Submit-job handler (`src/lambda_functions/submit_job/handler.py`) -/

/-- The parsed request body as `validate_input` inspects it: an `Option`
field is `none` exactly when the key is absent from the JSON object
(validation is key membership, not truthiness).  The handlers read these
fields as strings; a non-string value would surface as a store/scheduler
exception, which the transport oracles already model. -/
structure SubmitBody where
  job_name : Option String
  image : Option String
  input_data : Option String
  hyperparameters : Option PyVal

/-- `submit_job.validate_input`: the first missing required field (in
source order) yields the error message; `none` means valid. -/
def validateInput (b : SubmitBody) : Option String :=
  if b.job_name.isNone then some "Missing required field: job_name"
  else if b.image.isNone then some "Missing required field: image"
  else if b.input_data.isNone then some "Missing required field: input_data"
  else none

/-- Environment configuration read by the submit handler. -/
structure SubmitConfig where
  s3Bucket : String
  dynamodbTable : String

/-- Outcomes of the submit handler's external calls: `json.loads`
(`.error` = `JSONDecodeError`), the `uuid4().hex` draw, the clock, the
`put_item` transport, `start_ecs_task` (which catches internally and
returns a task ARN or `None`), and the `update_item` transport. -/
structure SubmitOracle where
  parsedBody : Except Unit SubmitBody
  uuidHex : String
  now : Int
  putOutcome : Except String Unit
  launchResult : Option String
  updateOutcome : Except String Unit

/-- The `job_data` dict the submit handler builds from the request body
(`s3_output` is derived deterministically from the bucket and job name). -/
def submitJobData (cfg : SubmitConfig) (body : SubmitBody) :
    List (String × PyVal) :=
  [("job_name", .pyStr (body.job_name.getD "")),
   ("image", .pyStr (body.image.getD "")),
   ("s3_input", .pyStr (body.input_data.getD "")),
   ("s3_output", .pyStr ("s3://" ++ cfg.s3Bucket ++ "/models/"
     ++ body.job_name.getD "")),
   ("hyperparameters", body.hyperparameters.getD (.pyDict []))]

/-- `submit_job.lambda_handler`.  Returns the response together with the
job table after the call. -/
def submitJobHandler (cfg : SubmitConfig) (o : SubmitOracle) (t : Table) :
    Response × Table :=
  match o.parsedBody with
  | .error _ =>
      (mkJobResponse 400 (.pyDict [("error", .pyStr "Invalid JSON in request body")]), t)
  | .ok body =>
    match validateInput body with
    | some err => (mkJobResponse 400 (.pyDict [("error", .pyStr err)]), t)
    | none =>
      let jobData := submitJobData cfg body
      match createJob t o.uuidHex o.now jobData o.putOutcome with
      | .error e =>
          (mkJobResponse 500 (.pyDict [("error", .pyStr "Database error"),
            ("message", .pyStr e), ("table", .pyStr cfg.dynamodbTable)]), t)
      | .ok (jobId, t1) =>
          if jobId = "" then
            (mkJobResponse 500 (.pyDict
              [("error", .pyStr "Failed to create job - create_job returned None")]), t1)
          else
            match o.launchResult with
            | some taskArn =>
                let r := updateJobStatus t1 jobId "running"
                  [("task_arn", .pyStr taskArn)] o.updateOutcome
                (mkJobResponse 200 (.pyDict [("job_id", .pyStr jobId)]), r.2)
            | none =>
                (mkJobResponse 200 (.pyDict [("job_id", .pyStr jobId)]), t1)

/-! ## Get-job-status handler (`src/lambda_functions/get_job_status/handler.py`) -/

/-- Inputs of the get-job-status handler: `pathParams = none` models a
missing or falsy `pathParameters`, `some none` a present dict lacking
`job_id`, `some (some jid)` the id; plus the `get_item` transport. -/
structure GetJobStatusOracle where
  pathParams : Option (Option String)
  getOutcome : Except String Unit

/-- `get_job_status.lambda_handler`: 400 without an id, 500 on a store
error, 404 when absent, else 200 with the verbatim record (serialized with
`default=str`; no decimal-to-float conversion in this handler). -/
def getJobStatusHandler (o : GetJobStatusOracle) (t : Table) : Response :=
  match o.pathParams with
  | none => mkJobResponse 400 (.pyDict [("error", .pyStr "Missing job_id parameter")])
  | some none => mkJobResponse 400 (.pyDict [("error", .pyStr "Missing job_id parameter")])
  | some (some jobId) =>
    match getJob t jobId o.getOutcome with
    | .error e => mkJobResponse 500 (.pyDict [("error", .pyStr "Database error"),
        ("message", .pyStr e)])
    | .ok none => mkJobResponse 404 (.pyDict [("error", .pyStr "Job not found")])
    | .ok (some job) => mkJobResponse 200 job

/-! ## Create-endpoint handler (`src/lambda_functions/create_endpoint/handler.py`) -/

/-- The parsed create-endpoint body (key membership, as in `SubmitBody`). -/
structure CreateEndpointBody where
  endpoint_name : Option String
  job_id : Option String
  image : Option String

/-- `create_endpoint.validate_input`: first missing required field in
source order (`endpoint_name`, `job_id`). -/
def validateEndpointInput (b : CreateEndpointBody) : Option String :=
  if b.endpoint_name.isNone then some "Missing required field: endpoint_name"
  else if b.job_id.isNone then some "Missing required field: job_id"
  else none

/-- Environment configuration read by the endpoint handlers. -/
structure EndpointConfig where
  s3Bucket : String
  albDnsName : String
  ecsCluster : String

/-- Outcomes of the create-endpoint handler's external calls.
`serviceResult` is what `create_ecs_service` produces: the new service's
ARN, or `none` when the call failed (that function catches internally);
`modelExists` is whether `s3.head_object` on the derived path succeeds
(`check_model_exists` catches internally and returns a Bool);
`autoscalingSuccess` is the Bool from `setup_autoscaling` (which also
catches internally). -/
structure CreateEndpointOracle where
  parsedBody : Except Unit CreateEndpointBody
  getOutcome : Except String Unit
  modelExists : Bool
  now : Int
  putOutcome : Except String Unit
  serviceResult : Option String
  autoscalingSuccess : Bool
  updateOutcome : Except String Unit

/-- `create_endpoint.lambda_handler`.  The third component records whether
`ecs.create_service` was invoked.  The `get_endpoint` call is not wrapped
in an inner `try`, so a transport error there reaches the top-level
`except` and becomes a 500 carrying the exception text. -/
def createEndpointHandler (cfg : EndpointConfig) (o : CreateEndpointOracle)
    (t : Table) : Response × Table × Bool :=
  match o.parsedBody with
  | .error _ =>
      (mkEndpointResponse 400 (.pyDict [("error", .pyStr "Invalid JSON in request body")]),
       t, false)
  | .ok body =>
    match validateEndpointInput body with
    | some err => (mkEndpointResponse 400 (.pyDict [("error", .pyStr err)]), t, false)
    | none =>
      let endpointName := body.endpoint_name.getD ""
      let jobId := body.job_id.getD ""
      match getEndpoint t endpointName o.getOutcome with
      | .error e => (mkEndpointResponse 500 (.pyDict [("error", .pyStr e)]), t, false)
      | .ok (some _) =>
          (mkEndpointResponse 409 (.pyDict
            [("error", .pyStr ("Endpoint " ++ endpointName ++ " already exists"))]),
           t, false)
      | .ok none =>
        let modelS3Path := "s3://" ++ cfg.s3Bucket ++ "/models/" ++ jobId ++ "/model.pkl"
        if !o.modelExists then
          (mkEndpointResponse 404 (.pyDict
            [("error", .pyStr ("Model not found at " ++ modelS3Path))]), t, false)
        else
          match createEndpoint t o.now
            [("endpoint_name", .pyStr endpointName), ("job_id", .pyStr jobId),
             ("model_s3_path", .pyStr modelS3Path)] o.putOutcome with
          | .error e =>
              (mkEndpointResponse 500 (.pyDict [("error", .pyStr "Database error"),
                ("message", .pyStr e)]), t, false)
          | .ok (_, t1) =>
            match o.serviceResult with
            | some serviceArn =>
                let endpointUrl := "http://" ++ cfg.albDnsName ++ "/" ++ endpointName
                let r := updateEndpointStatus t1 endpointName "active"
                  [("service_arn", .pyStr serviceArn),
                   ("endpoint_url", .pyStr endpointUrl),
                   ("autoscaling_enabled", .pyBool o.autoscalingSuccess)] o.updateOutcome
                (mkEndpointResponse 200 (.pyDict
                  [("endpoint_name", .pyStr endpointName),
                   ("endpoint_url", .pyStr endpointUrl),
                   ("status", .pyStr "active"),
                   ("service_arn", .pyStr serviceArn)]), r.2, true)
            | none =>
                let r := updateEndpointStatus t1 endpointName "failed" [] o.updateOutcome
                (mkEndpointResponse 500 (.pyDict
                  [("error", .pyStr "Failed to create ECS service")]), r.2, true)

/-! ## Delete-endpoint handler (`src/lambda_functions/delete_endpoint/handler.py`) -/

/-- Python truthiness of an optional record field (`endpoint.get(k)`;
absent means `None`, hence falsy).  Float/decimal zero-ness goes by their
canonical strings; the fields tested this way only ever hold strings in
the records this system writes. -/
def truthyOpt : Option PyVal → Bool
  | none => false
  | some (.pyStr s) => s != ""
  | some (.pyBool b) => b
  | some (.pyInt n) => n != 0
  | some (.pyFloat r) => r != "0.0" && r != "-0.0"
  | some (.pyDecimal s) =>
      (s.toList.takeWhile (fun c => c != 'E' && c != 'e')).any
        (fun c => '1' ≤ c && c ≤ '9')
  | some (.pyDict fields) => !fields.isEmpty
  | some (.pyList items) => !items.isEmpty

/-- One scheduler call attempted by the teardown path, in order. -/
inductive EcsAction where
  | deregisterAutoscaling
  | updateServiceToZero
  | deleteService
deriving DecidableEq, Repr

/-- Outcomes of `delete_ecs_service`'s scheduler calls:
`deregister_autoscaling` catches internally and yields a Bool; the
`ecs.update_service(desiredCount=0)` and `ecs.delete_service(force=True)`
transports can raise (the error string is the exception text, e.g.
`"ServiceNotFoundException"` when the service is already gone). -/
structure DeleteEcsOracle where
  deregisterResult : Bool
  updateServiceOutcome : Except String Unit
  deleteServiceOutcome : Except String Unit

/-- `delete_endpoint.delete_ecs_service`: deregister autoscaling, then
scale the service to zero desired count, then delete it; any exception
from either ECS call is caught and the function returns `False`.  The
second component is the ordered trace of scheduler calls attempted. -/
def deleteEcsService (o : DeleteEcsOracle) : Bool × List EcsAction :=
  match o.updateServiceOutcome with
  | .error _ => (false, [.deregisterAutoscaling, .updateServiceToZero])
  | .ok _ =>
    match o.deleteServiceOutcome with
    | .error _ =>
        (false, [.deregisterAutoscaling, .updateServiceToZero, .deleteService])
    | .ok _ =>
        (true, [.deregisterAutoscaling, .updateServiceToZero, .deleteService])

/-- Inputs of the delete-endpoint handler: the `endpoint_name` path
parameter (`none` when absent), the `get_item` transport (not wrapped in
an inner `try`, so an error there becomes a top-level 500), the teardown
oracles, and the `delete_item` transport. -/
structure DeleteEndpointOracle where
  endpointName : Option String
  getOutcome : Except String Unit
  teardown : DeleteEcsOracle
  deleteOutcome : Except String Unit

/-- `delete_endpoint.lambda_handler`: 400 on a falsy path name, 404 when
the record is absent; otherwise tear down the ECS service when
`service_arn` is truthy (logging but ignoring the result), delete the
record via the store method (which never raises, so the handler's 500
database-error branch cannot trigger), and return 200.  The third
component is the scheduler-call trace (empty when teardown was skipped). -/
def deleteEndpointHandler (o : DeleteEndpointOracle) (t : Table) :
    Response × Table × List EcsAction :=
  match o.endpointName with
  | none =>
      (mkEndpointResponse 400 (.pyDict [("error", .pyStr "Missing endpoint_name in path")]),
       t, [])
  | some endpointName =>
    if endpointName = "" then
      (mkEndpointResponse 400 (.pyDict [("error", .pyStr "Missing endpoint_name in path")]),
       t, [])
    else
      match getEndpoint t endpointName o.getOutcome with
      | .error e => (mkEndpointResponse 500 (.pyDict [("error", .pyStr e)]), t, [])
      | .ok none =>
          (mkEndpointResponse 404 (.pyDict
            [("error", .pyStr ("Endpoint " ++ endpointName ++ " not found"))]), t, [])
      | .ok (some endpoint) =>
        let serviceArn := lookupField (dictFields endpoint) "service_arn"
        let trace := if truthyOpt serviceArn then (deleteEcsService o.teardown).2 else []
        let r := deleteEndpoint t endpointName o.deleteOutcome
        (mkEndpointResponse 200 (.pyDict
          [("message", .pyStr ("Endpoint " ++ endpointName ++ " deleted successfully")),
           ("endpoint_name", .pyStr endpointName)]), r.2, trace)

/-! ## Get-endpoint-status handler
(`src/lambda_functions/get_endpoint_status/handler.py`) -/

mutual

/-- The `convert_decimals` helper defined inside
`get_endpoint_status.lambda_handler`: everything with a `__float__`
method — decimals, ints, bools, floats — becomes a float, recursively.
In the repr-string model, `float(Decimal(s))` is the float canonically
printed `s`: the decimal strings this system stores are `str(float)`
outputs (via `Decimal(str(f))`), for which the recovered float's `repr`
is the stored string itself. -/
def convertDecimals : PyVal → PyVal
  | .pyDict fields => .pyDict (convertDecimalsFields fields)
  | .pyList items => .pyList (convertDecimalsItems items)
  | .pyDecimal s => .pyFloat s
  | .pyInt n => .pyFloat (toString n ++ ".0")
  | .pyBool b => .pyFloat (if b then "1.0" else "0.0")
  | .pyFloat r => .pyFloat r
  | .pyStr s => .pyStr s

/-- The dict branch of `convert_decimals`. -/
def convertDecimalsFields : List (String × PyVal) → List (String × PyVal)
  | [] => []
  | (k, v) :: rest => (k, convertDecimals v) :: convertDecimalsFields rest

/-- The list branch of `convert_decimals`. -/
def convertDecimalsItems : List PyVal → List PyVal
  | [] => []
  | v :: rest => convertDecimals v :: convertDecimalsItems rest

end

/-- `EndpointStore.list_endpoints`: bounded unordered scan returning the
stored items; a transport error is re-raised. -/
def listEndpoints (t : Table) (limit : Nat) (outcome : Except String Unit) :
    Except String (List PyVal) :=
  match outcome with
  | .ok _ => .ok ((t.take limit).map Prod.snd)
  | .error e => .error e

/-- Inputs of the get-endpoint-status handler. -/
structure GetEndpointStatusOracle where
  endpointName : Option String
  getOutcome : Except String Unit
  listOutcome : Except String Unit

/-- The list-all branch of `get_endpoint_status.lambda_handler` (taken
when no endpoint name is supplied): scan, convert decimals to floats,
return `{endpoints, count}`; 500 with the exception text on a scan error. -/
def listAllEndpointsBranch (t : Table) (listOutcome : Except String Unit) :
    Response :=
  match listEndpoints t 100 listOutcome with
  | .error e => mkEndpointResponse 500 (.pyDict [("error", .pyStr e)])
  | .ok endpoints =>
      let endpoints := convertDecimalsItems endpoints
      mkEndpointResponse 200 (.pyDict
        [("endpoints", .pyList endpoints),
         ("count", .pyInt (endpoints.length : Int))])

/-- `get_endpoint_status.lambda_handler`: a falsy name lists all
endpoints; otherwise point lookup (404 when absent, 500 on a store error,
else 200 with the decimal-converted record). -/
def getEndpointStatusHandler (o : GetEndpointStatusOracle) (t : Table) :
    Response :=
  match o.endpointName with
  | none => listAllEndpointsBranch t o.listOutcome
  | some endpointName =>
    if endpointName = "" then listAllEndpointsBranch t o.listOutcome
    else
      match getEndpoint t endpointName o.getOutcome with
      | .error e => mkEndpointResponse 500 (.pyDict
          [("error", .pyStr "Database error"), ("message", .pyStr e)])
      | .ok none => mkEndpointResponse 404 (.pyDict
          [("error", .pyStr ("Endpoint " ++ endpointName ++ " not found"))])
      | .ok (some endpoint) => mkEndpointResponse 200 (convertDecimals endpoint)

/-! ## Table and dictionary lemmas -/

theorem tableGet_tablePut_self (t : Table) (k : String) (item : PyVal) :
    tableGet (tablePut t k item) k = some item := by
  simp [tablePut, tableGet]

theorem tableGet_filter_ne (key k : String) (h : k ≠ key) :
    ∀ t : Table, tableGet (t.filter (fun kv => kv.1 != key)) k = tableGet t k := by
  intro t
  induction t with
  | nil => rfl
  | cons kv rest ih =>
    obtain ⟨k1, v⟩ := kv
    by_cases hk : k1 = key
    · subst hk
      simp [List.filter_cons, tableGet, Ne.symm h, ih]
    · simp [List.filter_cons, tableGet, hk, ih]

theorem tableGet_tablePut_ne (t : Table) (key k : String) (item : PyVal)
    (h : k ≠ key) : tableGet (tablePut t key item) k = tableGet t k := by
  simp only [tablePut, tableGet, if_neg (fun hh : key = k => h hh.symm)]
  exact tableGet_filter_ne key k h t

theorem tableGet_tableDelete_self (t : Table) (key : String) :
    tableGet (tableDelete t key) key = none := by
  induction t with
  | nil => rfl
  | cons kv rest ih =>
    obtain ⟨k1, v⟩ := kv
    by_cases hk : k1 = key
    · subst hk; simpa [tableDelete, List.filter_cons] using ih
    · simpa [tableDelete, List.filter_cons, hk, tableGet] using ih

theorem lookupField_map_set (k : String) (v : PyVal) :
    ∀ fs, (lookupField fs k).isSome →
      lookupField (fs.map (fun kv => if kv.1 = k then (k, v) else kv)) k = some v := by
  intro fs
  induction fs with
  | nil => simp [lookupField]
  | cons kv rest ih =>
    obtain ⟨k1, v1⟩ := kv
    intro hs
    simp only [List.map_cons]
    by_cases h : k1 = k
    · rw [if_pos h]
      simp [lookupField]
    · rw [if_neg h]
      simp only [lookupField, if_neg h] at hs ⊢
      exact ih hs

theorem lookupField_map_set_ne (k k' : String) (v : PyVal) (h : k' ≠ k) :
    ∀ fs, lookupField (fs.map (fun kv => if kv.1 = k then (k, v) else kv)) k'
      = lookupField fs k' := by
  intro fs
  induction fs with
  | nil => rfl
  | cons kv rest ih =>
    obtain ⟨k1, v1⟩ := kv
    simp only [List.map_cons]
    by_cases hk : k1 = k
    · subst hk
      rw [if_pos rfl]
      simp only [lookupField, if_neg (fun hh : k1 = k' => h hh.symm)]
      exact ih
    · rw [if_neg hk]
      simp only [lookupField]
      rw [ih]

theorem lookupField_append_right (k : String) (v : PyVal) :
    ∀ fs, lookupField fs k = none → lookupField (fs ++ [(k, v)]) k = some v := by
  intro fs
  induction fs with
  | nil => simp [lookupField]
  | cons kv rest ih =>
    obtain ⟨k1, v1⟩ := kv
    intro hn
    by_cases h : k1 = k
    · subst h; simp [lookupField] at hn
    · simp only [List.cons_append, lookupField, if_neg h] at hn ⊢
      exact ih hn

theorem lookupField_append_single_ne (k k' : String) (v : PyVal) (h : k' ≠ k) :
    ∀ fs, lookupField (fs ++ [(k, v)]) k' = lookupField fs k' := by
  intro fs
  induction fs with
  | nil => simp [lookupField, Ne.symm h]
  | cons kv rest ih =>
    obtain ⟨k1, v1⟩ := kv
    by_cases hk : k1 = k'
    · subst hk; simp [lookupField]
    · simp [lookupField, hk, ih]

theorem lookupField_setField_self (k : String) (v : PyVal) (fs : List (String × PyVal)) :
    lookupField (setField fs k v) k = some v := by
  cases hl : lookupField fs k with
  | none =>
    have hset : setField fs k v = fs ++ [(k, v)] := by simp [setField, hl]
    rw [hset]
    exact lookupField_append_right k v fs hl
  | some w =>
    have hset : setField fs k v
        = fs.map (fun kv => if kv.1 = k then (k, v) else kv) := by simp [setField, hl]
    rw [hset]
    exact lookupField_map_set k v fs (by simp [hl])

theorem lookupField_setField_ne (k k' : String) (v : PyVal)
    (h : k' ≠ k) (fs : List (String × PyVal)) :
    lookupField (setField fs k v) k' = lookupField fs k' := by
  cases hl : lookupField fs k with
  | none =>
    have hset : setField fs k v = fs ++ [(k, v)] := by simp [setField, hl]
    rw [hset]
    exact lookupField_append_single_ne k k' v h fs
  | some w =>
    have hset : setField fs k v
        = fs.map (fun kv => if kv.1 = k then (k, v) else kv) := by simp [setField, hl]
    rw [hset]
    exact lookupField_map_set_ne k k' v h fs

theorem lookupField_applyUpdates_not_mem (k : String) :
    ∀ (us fs : List (String × PyVal)), (∀ kv ∈ us, kv.1 ≠ k) →
      lookupField (applyUpdates fs us) k = lookupField fs k := by
  intro us
  induction us with
  | nil => intro fs _; rfl
  | cons kv rest ih =>
    intro fs h
    obtain ⟨k1, v1⟩ := kv
    have h1 : k1 ≠ k := h (k1, v1) (by simp)
    simp only [applyUpdates]
    rw [ih (setField fs k1 v1) (fun kv hkv => h kv (List.mem_cons_of_mem _ hkv))]
    exact lookupField_setField_ne k1 k v1 (Ne.symm h1) fs

theorem lookupField_applyUpdates_set (k : String) (v : PyVal)
    (fs rest : List (String × PyVal)) (h : ∀ kv ∈ rest, kv.1 ≠ k) :
    lookupField (applyUpdates fs ((k, v) :: rest)) k = some v := by
  simp only [applyUpdates]
  rw [lookupField_applyUpdates_not_mem k rest (setField fs k v) h]
  exact lookupField_setField_self k v fs

theorem lookupField_convertFloatsFields (k : String) :
    ∀ fs, lookupField (convertFloatsFields fs) k
      = (lookupField fs k).map convertFloatsToDecimals := by
  intro fs
  induction fs with
  | nil => rfl
  | cons kv rest ih =>
    obtain ⟨k1, v1⟩ := kv
    by_cases h : k1 = k <;> simp [convertFloatsFields, lookupField, h, ih]

theorem jobIdOf_ne_empty (u : String) : jobIdOf u ≠ "" := by
  intro h
  have hl := congrArg String.length h
  rw [jobIdOf, String.length_append, String.length_empty] at hl
  have h4 : ("job-" : String).length = 4 := rfl
  rw [h4] at hl
  omega

/-- The `status` attribute of a freshly created job item is `pending`
whenever `job_data` does not itself override `status` (the handler's
`job_data` never does). -/
theorem jobItem_status (u : String) (now : Int) (jobData : List (String × PyVal))
    (h : ∀ kv ∈ jobData, kv.1 ≠ "status") :
    lookupField (dictFields (convertFloatsToDecimals (jobItem u now jobData)))
      "status" = some (.pyStr "pending") := by
  rw [jobItem, convertFloatsToDecimals, dictFields, lookupField_convertFloatsFields,
    lookupField_applyUpdates_not_mem "status" jobData _ h]
  rfl

/-- A key bound in an association list appears among the mapped first
components. -/
theorem key_ne_of_map_fst {l : List (String × PyVal)} {k : String}
    (h : ∀ s ∈ l.map Prod.fst, s ≠ k) : ∀ kv ∈ l, kv.1 ≠ k :=
  fun kv hkv => h kv.1 (List.mem_map_of_mem Prod.fst hkv)

theorem submitJobData_keys (cfg : SubmitConfig) (body : SubmitBody) :
    (submitJobData cfg body).map Prod.fst
      = ["job_name", "image", "s3_input", "s3_output", "hyperparameters"] := rfl

/-- Running the submit handler on a well-formed request whose record
creation succeeds: 200 with the job id, and the table reflects the
launch/update outcome. -/
theorem submitJobHandler_run
    (cfg : SubmitConfig) (o : SubmitOracle) (t : Table) (body : SubmitBody)
    (hparse : o.parsedBody = .ok body)
    (hvalid : validateInput body = none)
    (hput : o.putOutcome = .ok ()) :
    submitJobHandler cfg o t
      = (mkJobResponse 200 (.pyDict [("job_id", .pyStr (jobIdOf o.uuidHex))]),
         match o.launchResult with
         | some taskArn =>
             (updateJobStatus
               (tablePut t (jobIdOf o.uuidHex)
                 (convertFloatsToDecimals
                   (jobItem o.uuidHex o.now (submitJobData cfg body))))
               (jobIdOf o.uuidHex) "running" [("task_arn", .pyStr taskArn)]
               o.updateOutcome).2
         | none =>
             tablePut t (jobIdOf o.uuidHex)
               (convertFloatsToDecimals
                 (jobItem o.uuidHex o.now (submitJobData cfg body)))) := by
  rw [submitJobHandler, hparse]
  simp only [hvalid, createJob, hput, if_neg (jobIdOf_ne_empty o.uuidHex)]
  cases o.launchResult <;> rfl

/-! ## C1 -/

/-- C1: for a submit-job request with the required fields present, when
record creation succeeds but the ephemeral launch fails (`start_ecs_task`
returns no task ARN), the stored job's `status` is still `pending` and the
handler returns status 200 with a body carrying the created job's id. -/
theorem submitJob_launchFailure_pending_200
    (cfg : SubmitConfig) (o : SubmitOracle) (t : Table) (body : SubmitBody)
    (hparse : o.parsedBody = .ok body)
    (hvalid : validateInput body = none)
    (hput : o.putOutcome = .ok ())
    (hlaunch : o.launchResult = none) :
    (submitJobHandler cfg o t).1.statusCode = 200 ∧
    lookupField (dictFields (submitJobHandler cfg o t).1.body) "job_id"
      = some (.pyStr (jobIdOf o.uuidHex)) ∧
    ∃ fields, tableGet (submitJobHandler cfg o t).2 (jobIdOf o.uuidHex)
        = some (.pyDict fields)
      ∧ lookupField fields "status" = some (.pyStr "pending") := by
  rw [submitJobHandler_run cfg o t body hparse hvalid hput, hlaunch]
  refine ⟨rfl, rfl, ?_⟩
  have hget := tableGet_tablePut_self t (jobIdOf o.uuidHex)
    (convertFloatsToDecimals (jobItem o.uuidHex o.now (submitJobData cfg body)))
  have hstatus := jobItem_status o.uuidHex o.now (submitJobData cfg body)
    (key_ne_of_map_fst (by rw [submitJobData_keys]; decide))
  rw [jobItem, convertFloatsToDecimals] at hget hstatus
  exact ⟨_, hget, by simpa [dictFields] using hstatus⟩

/-- Witness for C1 at a concrete request (launcher returns no handle). -/
theorem submitJob_launchFailure_pending_200_witness :
    (submitJobHandler ⟨"ml-platform-bucket", "ml-jobs"⟩
        ⟨.ok ⟨some "t1", some "img:latest", some "s3://b/d.csv", none⟩,
         "aaaabbbbccccddddeeeeffff00001111", 1700000000, .ok (), none, .ok ()⟩
        []).1.statusCode = 200 ∧
    lookupField (dictFields ((submitJobHandler ⟨"ml-platform-bucket", "ml-jobs"⟩
        ⟨.ok ⟨some "t1", some "img:latest", some "s3://b/d.csv", none⟩,
         "aaaabbbbccccddddeeeeffff00001111", 1700000000, .ok (), none, .ok ()⟩
        []).1.body)) "job_id"
      = some (.pyStr (jobIdOf "aaaabbbbccccddddeeeeffff00001111")) ∧
    ∃ fields, tableGet ((submitJobHandler ⟨"ml-platform-bucket", "ml-jobs"⟩
        ⟨.ok ⟨some "t1", some "img:latest", some "s3://b/d.csv", none⟩,
         "aaaabbbbccccddddeeeeffff00001111", 1700000000, .ok (), none, .ok ()⟩
        []).2) (jobIdOf "aaaabbbbccccddddeeeeffff00001111")
        = some (.pyDict fields)
      ∧ lookupField fields "status" = some (.pyStr "pending") :=
  submitJob_launchFailure_pending_200 _ _ _ _ rfl rfl rfl rfl

/-! ## C2 -/

/-- C2 counterexample: a record whose hyperparameters contain the float
`0.1`, written through `JobStore.create_job` and read back through
`JobStore.get_job`, comes back with `Decimal('0.1')` in place of the
float — the store read performs no decimal-to-float conversion, so the
original float value is not reproduced. -/
theorem jobStore_roundTrip_keeps_decimal_counterexample :
    createJob [] "aaaabbbbccccddddeeeeffff00001111" 1700000000
        [("hyperparameters", .pyDict [("learning_rate", .pyFloat "0.1")])] (.ok ())
      = .ok ("job-aaaabbbb",
          [("job-aaaabbbb", .pyDict
            [("job_id", .pyStr "job-aaaabbbb"),
             ("status", .pyStr "pending"),
             ("created_at", .pyInt 1700000000),
             ("hyperparameters", .pyDict [("learning_rate", .pyDecimal "0.1")])])]) ∧
    getJob [("job-aaaabbbb", .pyDict
            [("job_id", .pyStr "job-aaaabbbb"),
             ("status", .pyStr "pending"),
             ("created_at", .pyInt 1700000000),
             ("hyperparameters", .pyDict [("learning_rate", .pyDecimal "0.1")])])]
        "job-aaaabbbb" (.ok ())
      = .ok (some (.pyDict
            [("job_id", .pyStr "job-aaaabbbb"),
             ("status", .pyStr "pending"),
             ("created_at", .pyInt 1700000000),
             ("hyperparameters", .pyDict [("learning_rate", .pyDecimal "0.1")])])) ∧
    (PyVal.pyDict [("learning_rate", .pyDecimal "0.1")])
      ≠ (PyVal.pyDict [("learning_rate", .pyFloat "0.1")]) := by
  refine ⟨rfl, rfl, by simp⟩

/-- C2 (amended): the store write converts every float to its exact
decimal form `Decimal(str(f))`, recursively through nested mappings and
sequences, and a write followed by a read reproduces exactly the
decimal-converted record — the store read returns the stored item
unchanged, performing no decimal-to-float conversion. -/
theorem jobStore_write_read_is_decimal_conversion
    (t : Table) (uuidHex : String) (now : Int)
    (jobData : List (String × PyVal)) :
    createJob t uuidHex now jobData (.ok ())
      = .ok (jobIdOf uuidHex, tablePut t (jobIdOf uuidHex)
          (convertFloatsToDecimals (jobItem uuidHex now jobData))) ∧
    getJob (tablePut t (jobIdOf uuidHex)
        (convertFloatsToDecimals (jobItem uuidHex now jobData)))
        (jobIdOf uuidHex) (.ok ())
      = .ok (some (convertFloatsToDecimals (jobItem uuidHex now jobData))) := by
  refine ⟨rfl, ?_⟩
  rw [getJob, tableGet_tablePut_self]

/-! ## C3 -/

theorem tableUpdate_tablePut_dict (t : Table) (keyName key : String)
    (fs ups : List (String × PyVal)) :
    tableUpdate (tablePut t key (.pyDict fs)) keyName key ups
      = tablePut (tablePut t key (.pyDict fs)) key (.pyDict (applyUpdates fs ups)) := by
  rw [tableUpdate, tableGet_tablePut_self]

/-- C3 counterexample: a submit-job call whose ephemeral launch returns a
task ARN but whose subsequent status-update write raises leaves a stored
record with no `task_arn` attribute — the launch succeeded at least once,
yet `task_arn` is absent, refuting "present iff launch succeeded". -/
theorem taskArn_missing_after_successful_launch :
    tableGet (submitJobHandler ⟨"ml-platform-bucket", "ml-jobs"⟩
        ⟨.ok ⟨some "t1", some "img:latest", some "s3://b/d.csv", none⟩,
         "aaaabbbbccccddddeeeeffff00001111", 1700000000, .ok (),
         some "arn:aws:ecs:us-east-1:123456789012:task/abc",
         .error "update_item: connection timeout"⟩ []).2 "job-aaaabbbb"
      = some (.pyDict
          [("job_id", .pyStr "job-aaaabbbb"),
           ("status", .pyStr "pending"),
           ("created_at", .pyInt 1700000000),
           ("job_name", .pyStr "t1"),
           ("image", .pyStr "img:latest"),
           ("s3_input", .pyStr "s3://b/d.csv"),
           ("s3_output", .pyStr "s3://ml-platform-bucket/models/t1"),
           ("hyperparameters", .pyDict [])]) ∧
    lookupField
          [("job_id", .pyStr "job-aaaabbbb"),
           ("status", .pyStr "pending"),
           ("created_at", .pyInt 1700000000),
           ("job_name", .pyStr "t1"),
           ("image", .pyStr "img:latest"),
           ("s3_input", .pyStr "s3://b/d.csv"),
           ("s3_output", .pyStr "s3://ml-platform-bucket/models/t1"),
           ("hyperparameters", .pyDict [])] "task_arn" = none :=
  ⟨rfl, rfl⟩

/-- C3 (amended): for every job record reachable through a submit-job
request whose record creation succeeded, `task_arn` is present iff the
ephemeral launch succeeded and the subsequent status-update write also
succeeded; in particular it is never present without a successful launch,
but a successful launch whose update write fails leaves it absent. -/
theorem taskArn_iff_launch_and_update_success
    (cfg : SubmitConfig) (o : SubmitOracle) (t : Table) (body : SubmitBody)
    (hparse : o.parsedBody = .ok body)
    (hvalid : validateInput body = none)
    (hput : o.putOutcome = .ok ()) :
    ∃ fields,
      tableGet (submitJobHandler cfg o t).2 (jobIdOf o.uuidHex)
        = some (.pyDict fields) ∧
      (lookupField fields "task_arn").isSome
        = (o.launchResult.isSome && isOkOutcome o.updateOutcome) := by
  rw [submitJobHandler_run cfg o t body hparse hvalid hput]
  have hta : ∀ kv ∈ submitJobData cfg body, kv.1 ≠ "task_arn" :=
    key_ne_of_map_fst (by rw [submitJobData_keys]; decide)
  have htask0 : lookupField (convertFloatsFields (applyUpdates
      [("job_id", .pyStr (jobIdOf o.uuidHex)), ("status", .pyStr "pending"),
       ("created_at", .pyInt o.now)] (submitJobData cfg body))) "task_arn"
      = none := by
    rw [lookupField_convertFloatsFields,
      lookupField_applyUpdates_not_mem "task_arn" _ _ hta]
    rfl
  have hitem : convertFloatsToDecimals
      (jobItem o.uuidHex o.now (submitJobData cfg body))
      = .pyDict (convertFloatsFields (applyUpdates
          [("job_id", .pyStr (jobIdOf o.uuidHex)), ("status", .pyStr "pending"),
           ("created_at", .pyInt o.now)] (submitJobData cfg body))) := by
    rw [jobItem, convertFloatsToDecimals]
  cases hl : o.launchResult with
  | none =>
    have hget := tableGet_tablePut_self t (jobIdOf o.uuidHex)
      (convertFloatsToDecimals (jobItem o.uuidHex o.now (submitJobData cfg body)))
    rw [hitem] at hget
    refine ⟨_, hget, ?_⟩
    rw [htask0]
    simp
  | some arn =>
    cases hu : o.updateOutcome with
    | error e =>
      simp only [updateJobStatus]
      have hget := tableGet_tablePut_self t (jobIdOf o.uuidHex)
        (convertFloatsToDecimals (jobItem o.uuidHex o.now (submitJobData cfg body)))
      rw [hitem] at hget
      refine ⟨_, hget, ?_⟩
      rw [htask0]
      simp [isOkOutcome]
    | ok u =>
      cases u
      simp only [updateJobStatus]
      rw [hitem, tableUpdate_tablePut_dict]
      refine ⟨_, tableGet_tablePut_self _ _ _, ?_⟩
      simp only [applyUpdates]
      rw [lookupField_setField_self]
      simp [isOkOutcome]

/-- Witness for the amended C3: with a concrete successful launch and a
successful update, the stored record carries `task_arn`. -/
theorem taskArn_iff_launch_and_update_success_witness :
    ∃ fields,
      tableGet (submitJobHandler ⟨"ml-platform-bucket", "ml-jobs"⟩
          ⟨.ok ⟨some "t1", some "img:latest", some "s3://b/d.csv", none⟩,
           "aaaabbbbccccddddeeeeffff00001111", 1700000000, .ok (),
           some "arn:aws:ecs:us-east-1:123456789012:task/abc", .ok ()⟩ []).2
          (jobIdOf "aaaabbbbccccddddeeeeffff00001111")
        = some (.pyDict fields) ∧
      (lookupField fields "task_arn").isSome
        = ((some "arn:aws:ecs:us-east-1:123456789012:task/abc").isSome
            && isOkOutcome (.ok ())) :=
  taskArn_iff_launch_and_update_success _ _ _ _ rfl rfl rfl

/-! ## C4 -/

/-- The alphabet of `uuid4().hex`: lowercase hexadecimal digits. -/
def isLowerHexDigit (c : Char) : Bool :=
  ('0' ≤ c && c ≤ '9') || ('a' ≤ c && c ≤ 'f')

/-- Full match against the regex `job-[0-9a-f]{8}`. -/
def matchesJobIdPattern (s : String) : Bool :=
  match s.toList with
  | c1 :: c2 :: c3 :: c4 :: rest =>
      c1 == 'j' && c2 == 'o' && c3 == 'b' && c4 == '-'
        && rest.length == 8 && rest.all isLowerHexDigit
  | _ => false

/-- The shape `uuid.uuid4().hex` always has: 32 lowercase hex characters. -/
def validUuidHex (s : String) : Bool :=
  s.toList.length == 32 && s.toList.all isLowerHexDigit

theorem jobIdOf_toList (h : String) :
    (jobIdOf h).toList = 'j' :: 'o' :: 'b' :: '-' :: h.toList.take 8 := by
  have h4 : ("job-" : String).data = ['j', 'o', 'b', '-'] := rfl
  show ("job-" ++ String.mk (h.toList.take 8)).data = _
  rw [String.data_append, h4]
  rfl

/-- C4 counterexample: two distinct (and well-formed) `uuid4().hex` draws
that agree on their first 8 characters produce the same job id — the
8-hex-character truncation admits reuse, and `create_job` performs no
existence check. -/
theorem jobId_collision :
    validUuidHex "aaaabbbb000000000000000000000000" = true ∧
    validUuidHex "aaaabbbb111111111111111111111111" = true ∧
    "aaaabbbb000000000000000000000000" ≠ "aaaabbbb111111111111111111111111" ∧
    jobIdOf "aaaabbbb000000000000000000000000"
      = jobIdOf "aaaabbbb111111111111111111111111" :=
  ⟨rfl, rfl, by decide, rfl⟩

/-- C4 (amended): for every `uuid4().hex` draw the assigned job id matches
`job-[0-9a-f]{8}`, and the job ids of two submit-job calls coincide
exactly when the draws agree on their first 8 characters — distinctness
is therefore only as good as the truncated random prefix, not guaranteed. -/
theorem jobId_format_and_collision
    (h1 h2 : String) (hv : validUuidHex h1 = true) :
    matchesJobIdPattern (jobIdOf h1) = true ∧
    (jobIdOf h1 = jobIdOf h2 ↔ h1.toList.take 8 = h2.toList.take 8) := by
  obtain ⟨hlen32, hall⟩ :
      h1.toList.length = 32 ∧ ∀ c ∈ h1.toList, isLowerHexDigit c = true := by
    simpa [validUuidHex, List.all_eq_true] using hv
  constructor
  · unfold matchesJobIdPattern
    rw [jobIdOf_toList]
    simp only [beq_self_eq_true, Bool.true_and, Bool.and_eq_true, beq_iff_eq]
    constructor
    · rw [List.length_take, hlen32]
      decide
    · rw [List.all_eq_true]
      exact fun c hc => hall c (List.take_subset 8 h1.toList hc)
  · constructor
    · intro heq
      have := congrArg String.toList heq
      rw [jobIdOf_toList, jobIdOf_toList] at this
      simpa using this
    · intro htake
      unfold jobIdOf
      rw [htake]

/-- Witness for the amended C4 at two concrete draws sharing a prefix. -/
theorem jobId_format_and_collision_witness :
    matchesJobIdPattern (jobIdOf "aaaabbbb000000000000000000000000") = true ∧
    (jobIdOf "aaaabbbb000000000000000000000000"
        = jobIdOf "aaaabbbb111111111111111111111111"
      ↔ ("aaaabbbb000000000000000000000000" : String).toList.take 8
        = ("aaaabbbb111111111111111111111111" : String).toList.take 8) :=
  jobId_format_and_collision _ _ rfl

/-! ## C5 -/

/-- C5: a create-endpoint request whose endpoint name already has a stored
record yields 409, leaves the table unchanged, and never invokes the
persistent-compute launcher (`ecs.create_service`). -/
theorem createEndpoint_conflict_409_no_launch
    (cfg : EndpointConfig) (o : CreateEndpointOracle) (t : Table)
    (body : CreateEndpointBody) (r : PyVal)
    (hparse : o.parsedBody = .ok body)
    (hvalid : validateEndpointInput body = none)
    (hget : o.getOutcome = .ok ())
    (hrec : tableGet t (body.endpoint_name.getD "") = some r) :
    (createEndpointHandler cfg o t).1.statusCode = 409 ∧
    (createEndpointHandler cfg o t).2.1 = t ∧
    (createEndpointHandler cfg o t).2.2 = false := by
  have hrun : createEndpointHandler cfg o t
      = (mkEndpointResponse 409 (.pyDict
          [("error", .pyStr ("Endpoint " ++ body.endpoint_name.getD ""
            ++ " already exists"))]), t, false) := by
    rw [createEndpointHandler, hparse]
    simp only [hvalid, getEndpoint, hget, hrec]
  rw [hrun]
  exact ⟨rfl, rfl, rfl⟩

/-- Witness for C5: a concrete request against a table already holding
`e1`. -/
theorem createEndpoint_conflict_409_no_launch_witness :
    (createEndpointHandler ⟨"ml-platform-bucket", "my-alb.amazonaws.com", "training-cluster"⟩
        ⟨.ok ⟨some "e1", some "job-aaaaaaaa", none⟩, .ok (), true, 1700000000,
         .ok (), some "arn:aws:ecs:svc/e1", true, .ok ()⟩
        [("e1", .pyDict [("endpoint_name", .pyStr "e1")])]).1.statusCode = 409 ∧
    (createEndpointHandler ⟨"ml-platform-bucket", "my-alb.amazonaws.com", "training-cluster"⟩
        ⟨.ok ⟨some "e1", some "job-aaaaaaaa", none⟩, .ok (), true, 1700000000,
         .ok (), some "arn:aws:ecs:svc/e1", true, .ok ()⟩
        [("e1", .pyDict [("endpoint_name", .pyStr "e1")])]).2.1
      = [("e1", .pyDict [("endpoint_name", .pyStr "e1")])] ∧
    (createEndpointHandler ⟨"ml-platform-bucket", "my-alb.amazonaws.com", "training-cluster"⟩
        ⟨.ok ⟨some "e1", some "job-aaaaaaaa", none⟩, .ok (), true, 1700000000,
         .ok (), some "arn:aws:ecs:svc/e1", true, .ok ()⟩
        [("e1", .pyDict [("endpoint_name", .pyStr "e1")])]).2.2 = false :=
  createEndpoint_conflict_409_no_launch _ _ _ _ _ rfl rfl rfl rfl

/-! ## C6 -/

/-- C6: a create-endpoint request whose derived model path does not exist
in the object store yields 404, creates no record (table unchanged, no
launch), and a subsequent get-endpoint-status for that name returns 404. -/
theorem createEndpoint_model_missing_404_no_record
    (cfg : EndpointConfig) (o : CreateEndpointOracle) (t : Table)
    (body : CreateEndpointBody) (o2 : GetEndpointStatusOracle)
    (hparse : o.parsedBody = .ok body)
    (hvalid : validateEndpointInput body = none)
    (hget : o.getOutcome = .ok ())
    (hrec : tableGet t (body.endpoint_name.getD "") = none)
    (hmodel : o.modelExists = false)
    (hname2 : o2.endpointName = some (body.endpoint_name.getD ""))
    (hget2 : o2.getOutcome = .ok ())
    (hne : body.endpoint_name.getD "" ≠ "") :
    (createEndpointHandler cfg o t).1.statusCode = 404 ∧
    (createEndpointHandler cfg o t).2.1 = t ∧
    (createEndpointHandler cfg o t).2.2 = false ∧
    (getEndpointStatusHandler o2 (createEndpointHandler cfg o t).2.1).statusCode
      = 404 := by
  have hrun : createEndpointHandler cfg o t
      = (mkEndpointResponse 404 (.pyDict
          [("error", .pyStr ("Model not found at s3://" ++ cfg.s3Bucket
            ++ "/models/" ++ body.job_id.getD "" ++ "/model.pkl"))]), t, false) := by
    rw [createEndpointHandler, hparse]
    simp only [hvalid, getEndpoint, hget, hrec, hmodel]
    rfl
  rw [hrun]
  refine ⟨rfl, rfl, rfl, ?_⟩
  rw [getEndpointStatusHandler, hname2]
  simp only [if_neg hne, getEndpoint, hget2, hrec]
  rfl

/-- Witness for C6: a concrete request on an empty table with the model
artifact absent. -/
theorem createEndpoint_model_missing_404_no_record_witness :
    (createEndpointHandler ⟨"ml-platform-bucket", "my-alb.amazonaws.com", "training-cluster"⟩
        ⟨.ok ⟨some "e1", some "job-aaaaaaaa", none⟩, .ok (), false, 1700000000,
         .ok (), some "arn:aws:ecs:svc/e1", true, .ok ()⟩ []).1.statusCode = 404 ∧
    (createEndpointHandler ⟨"ml-platform-bucket", "my-alb.amazonaws.com", "training-cluster"⟩
        ⟨.ok ⟨some "e1", some "job-aaaaaaaa", none⟩, .ok (), false, 1700000000,
         .ok (), some "arn:aws:ecs:svc/e1", true, .ok ()⟩ []).2.1 = [] ∧
    (createEndpointHandler ⟨"ml-platform-bucket", "my-alb.amazonaws.com", "training-cluster"⟩
        ⟨.ok ⟨some "e1", some "job-aaaaaaaa", none⟩, .ok (), false, 1700000000,
         .ok (), some "arn:aws:ecs:svc/e1", true, .ok ()⟩ []).2.2 = false ∧
    (getEndpointStatusHandler ⟨some "e1", .ok (), .ok ()⟩
        (createEndpointHandler ⟨"ml-platform-bucket", "my-alb.amazonaws.com", "training-cluster"⟩
          ⟨.ok ⟨some "e1", some "job-aaaaaaaa", none⟩, .ok (), false, 1700000000,
           .ok (), some "arn:aws:ecs:svc/e1", true, .ok ()⟩ []).2.1).statusCode
      = 404 :=
  createEndpoint_model_missing_404_no_record _ _ _ _ _ rfl rfl rfl rfl rfl rfl rfl
    (by decide)

/-! ## C7 -/

/-- C7: the three delete-endpoint cases.  (a) No record for the name: 404
and the table is untouched.  (b) A record whose `service_arn` is falsy:
compute teardown is skipped entirely (empty scheduler-call trace), the
record is deleted, and the handler returns 200.  (c) A record with a
truthy `service_arn` whose compute teardown fails: the handler still
deletes the record and returns 200. -/
theorem deleteEndpoint_notFound_skipTeardown_continueOnFailure :
    (∀ (o : DeleteEndpointOracle) (t : Table) (n : String),
      o.endpointName = some n → n ≠ "" → o.getOutcome = .ok () →
      tableGet t n = none →
      (deleteEndpointHandler o t).1.statusCode = 404 ∧
      (deleteEndpointHandler o t).2.1 = t) ∧
    (∀ (o : DeleteEndpointOracle) (t : Table) (n : String) (item : PyVal),
      o.endpointName = some n → n ≠ "" → o.getOutcome = .ok () →
      tableGet t n = some item →
      truthyOpt (lookupField (dictFields item) "service_arn") = false →
      o.deleteOutcome = .ok () →
      (deleteEndpointHandler o t).1.statusCode = 200 ∧
      (deleteEndpointHandler o t).2.2 = [] ∧
      (deleteEndpointHandler o t).2.1 = tableDelete t n ∧
      tableGet (deleteEndpointHandler o t).2.1 n = none) ∧
    (∀ (o : DeleteEndpointOracle) (t : Table) (n : String) (item : PyVal),
      o.endpointName = some n → n ≠ "" → o.getOutcome = .ok () →
      tableGet t n = some item →
      truthyOpt (lookupField (dictFields item) "service_arn") = true →
      (deleteEcsService o.teardown).1 = false →
      o.deleteOutcome = .ok () →
      (deleteEndpointHandler o t).1.statusCode = 200 ∧
      (deleteEndpointHandler o t).2.1 = tableDelete t n) := by
  refine ⟨?_, ?_, ?_⟩
  · intro o t n hname hne hget hrec
    have hrun : deleteEndpointHandler o t
        = (mkEndpointResponse 404 (.pyDict
            [("error", .pyStr ("Endpoint " ++ n ++ " not found"))]), t, []) := by
      rw [deleteEndpointHandler, hname]
      simp only [if_neg hne, getEndpoint, hget, hrec]
    rw [hrun]
    exact ⟨rfl, rfl⟩
  · intro o t n item hname hne hget hrec htruthy hdel
    have hrun : deleteEndpointHandler o t
        = (mkEndpointResponse 200 (.pyDict
            [("message", .pyStr ("Endpoint " ++ n ++ " deleted successfully")),
             ("endpoint_name", .pyStr n)]), tableDelete t n, []) := by
      rw [deleteEndpointHandler, hname]
      simp only [if_neg hne, getEndpoint, hget, hrec, htruthy, deleteEndpoint, hdel,
        Bool.false_eq_true, if_false]
    rw [hrun]
    exact ⟨rfl, rfl, rfl, tableGet_tableDelete_self t n⟩
  · intro o t n item hname hne hget hrec htruthy hfail hdel
    have hrun : deleteEndpointHandler o t
        = (mkEndpointResponse 200 (.pyDict
            [("message", .pyStr ("Endpoint " ++ n ++ " deleted successfully")),
             ("endpoint_name", .pyStr n)]), tableDelete t n,
           (deleteEcsService o.teardown).2) := by
      rw [deleteEndpointHandler, hname]
      simp only [if_neg hne, getEndpoint, hget, hrec, htruthy, deleteEndpoint, hdel,
        if_true]
    rw [hrun]
    exact ⟨rfl, rfl⟩

/-- Witness for C7: the three cases at concrete inputs — an empty table, a
record without `service_arn`, and a record with one whose teardown's
scale-to-zero call raises. -/
theorem deleteEndpoint_notFound_skipTeardown_continueOnFailure_witness :
    ((deleteEndpointHandler ⟨some "e1", .ok (), ⟨true, .ok (), .ok ()⟩, .ok ()⟩
        []).1.statusCode = 404 ∧
     (deleteEndpointHandler ⟨some "e1", .ok (), ⟨true, .ok (), .ok ()⟩, .ok ()⟩
        []).2.1 = []) ∧
    ((deleteEndpointHandler ⟨some "e1", .ok (), ⟨true, .ok (), .ok ()⟩, .ok ()⟩
        [("e1", .pyDict [("endpoint_name", .pyStr "e1"),
          ("service_arn", .pyStr "")])]).1.statusCode = 200 ∧
     (deleteEndpointHandler ⟨some "e1", .ok (), ⟨true, .ok (), .ok ()⟩, .ok ()⟩
        [("e1", .pyDict [("endpoint_name", .pyStr "e1"),
          ("service_arn", .pyStr "")])]).2.2 = []) ∧
    ((deleteEndpointHandler ⟨some "e1", .ok (),
          ⟨true, .error "ServiceNotFoundException", .ok ()⟩, .ok ()⟩
        [("e1", .pyDict [("endpoint_name", .pyStr "e1"),
          ("service_arn", .pyStr "arn:aws:ecs:svc/e1")])]).1.statusCode = 200 ∧
     (deleteEndpointHandler ⟨some "e1", .ok (),
          ⟨true, .error "ServiceNotFoundException", .ok ()⟩, .ok ()⟩
        [("e1", .pyDict [("endpoint_name", .pyStr "e1"),
          ("service_arn", .pyStr "arn:aws:ecs:svc/e1")])]).2.1
       = tableDelete [("e1", .pyDict [("endpoint_name", .pyStr "e1"),
          ("service_arn", .pyStr "arn:aws:ecs:svc/e1")])] "e1") :=
  ⟨(deleteEndpoint_notFound_skipTeardown_continueOnFailure.1 _ [] "e1"
      rfl (by decide) rfl rfl),
   (let h := deleteEndpoint_notFound_skipTeardown_continueOnFailure.2.1 _
      [("e1", .pyDict [("endpoint_name", .pyStr "e1"),
        ("service_arn", .pyStr "")])] "e1"
      (.pyDict [("endpoint_name", .pyStr "e1"), ("service_arn", .pyStr "")])
      rfl (by decide) rfl rfl rfl rfl
    ⟨h.1, h.2.1⟩),
   (let h := deleteEndpoint_notFound_skipTeardown_continueOnFailure.2.2
      ⟨some "e1", .ok (), ⟨true, .error "ServiceNotFoundException", .ok ()⟩, .ok ()⟩
      [("e1", .pyDict [("endpoint_name", .pyStr "e1"),
        ("service_arn", .pyStr "arn:aws:ecs:svc/e1")])] "e1"
      (.pyDict [("endpoint_name", .pyStr "e1"),
        ("service_arn", .pyStr "arn:aws:ecs:svc/e1")])
      rfl (by decide) rfl rfl rfl rfl rfl
    ⟨h.1, h.2⟩)⟩

/-! ## C9 -/

/-- C9 counterexample: when the scheduler reports the service already gone
(`ecs.update_service` raises `ServiceNotFoundException`),
`delete_ecs_service` returns `False` — failure, not success — because its
`except` clause treats every exception alike. -/
theorem deleteEcsService_alreadyGone_reports_failure :
    deleteEcsService ⟨true, .error "ServiceNotFoundException", .ok ()⟩
      = (false, [.deregisterAutoscaling, .updateServiceToZero]) ∧
    (deleteEcsService ⟨true, .error "ServiceNotFoundException", .ok ()⟩).1
      ≠ true :=
  ⟨rfl, by decide⟩

/-- C9 (amended): `delete_ecs_service` deregisters autoscaling, then
scales the unit to zero desired capacity, then removes it — removal is
attempted exactly when the scale-to-zero call succeeded — and it reports
success iff both scheduler calls succeeded, so the unit being already
gone (an exception from either call) is reported as failure, not
success. -/
theorem deleteEcsService_order_and_failure (o : DeleteEcsOracle) :
    ((deleteEcsService o).2 = [.deregisterAutoscaling, .updateServiceToZero] ∨
     (deleteEcsService o).2
       = [.deregisterAutoscaling, .updateServiceToZero, .deleteService]) ∧
    (deleteEcsService o).1
      = (isOkOutcome o.updateServiceOutcome && isOkOutcome o.deleteServiceOutcome) ∧
    ((deleteEcsService o).2
        = [.deregisterAutoscaling, .updateServiceToZero, .deleteService]
      ↔ isOkOutcome o.updateServiceOutcome = true) := by
  obtain ⟨d, u, del⟩ := o
  cases u <;> cases del <;>
    simp [deleteEcsService, isOkOutcome]

/-! ## C10 -/

/-- C10: `EndpointStore.delete_endpoint` converts every backend exception
into `False` (never raising, leaving the table unchanged), and the
delete-endpoint handler ignores that boolean, so for any existing record
the handler returns 200 regardless of the record-deletion outcome — its
500 database-error branch is unreachable. -/
theorem deleteEndpoint_always_200_on_existing_record :
    (∀ (t : Table) (n e : String), deleteEndpoint t n (.error e) = (false, t)) ∧
    (∀ (o : DeleteEndpointOracle) (t : Table) (n : String) (item : PyVal),
      o.endpointName = some n → n ≠ "" → o.getOutcome = .ok () →
      tableGet t n = some item →
      (deleteEndpointHandler o t).1.statusCode = 200) := by
  refine ⟨fun t n e => rfl, ?_⟩
  intro o t n item hname hne hget hrec
  rw [deleteEndpointHandler, hname]
  simp only [if_neg hne, getEndpoint, hget, hrec]
  rfl

/-- Witness for C10: a concrete delete whose backend `delete_item` raises
still yields 200. -/
theorem deleteEndpoint_always_200_on_existing_record_witness :
    deleteEndpoint [("e1", .pyDict [("endpoint_name", .pyStr "e1")])] "e1"
        (.error "ProvisionedThroughputExceededException")
      = (false, [("e1", .pyDict [("endpoint_name", .pyStr "e1")])]) ∧
    (deleteEndpointHandler
        ⟨some "e1", .ok (), ⟨true, .ok (), .ok ()⟩,
         .error "ProvisionedThroughputExceededException"⟩
        [("e1", .pyDict [("endpoint_name", .pyStr "e1")])]).1.statusCode = 200 :=
  ⟨deleteEndpoint_always_200_on_existing_record.1 _ _ _,
   deleteEndpoint_always_200_on_existing_record.2 _ _ "e1"
     (.pyDict [("endpoint_name", .pyStr "e1")]) rfl (by decide) rfl rfl⟩

/-! ## C8 -/

/-- C8: every response of every handler, on every branch and for every
input (including malformed ones and failing dependencies), carries the
CORS header `Access-Control-Allow-Origin: *`; and where a dependency call
sits outside any inner `try` (the `get_endpoint` reads of the
create-endpoint and delete-endpoint handlers), its exception reaches the
top-level `except`, which converts it into a 500 response whose body
carries exactly the exception text — the handlers, being total, never let
an exception propagate to the caller. -/
theorem allHandlers_cors_and_top_level_catch :
    (∀ (cfg : SubmitConfig) (o : SubmitOracle) (t : Table),
      headerValue (submitJobHandler cfg o t).1 "Access-Control-Allow-Origin"
        = some "*") ∧
    (∀ (o : GetJobStatusOracle) (t : Table),
      headerValue (getJobStatusHandler o t) "Access-Control-Allow-Origin"
        = some "*") ∧
    (∀ (cfg : EndpointConfig) (o : CreateEndpointOracle) (t : Table),
      headerValue (createEndpointHandler cfg o t).1 "Access-Control-Allow-Origin"
        = some "*") ∧
    (∀ (o : DeleteEndpointOracle) (t : Table),
      headerValue (deleteEndpointHandler o t).1 "Access-Control-Allow-Origin"
        = some "*") ∧
    (∀ (o : GetEndpointStatusOracle) (t : Table),
      headerValue (getEndpointStatusHandler o t) "Access-Control-Allow-Origin"
        = some "*") ∧
    (∀ (cfg : EndpointConfig) (o : CreateEndpointOracle) (t : Table)
       (body : CreateEndpointBody) (e : String),
      o.parsedBody = .ok body → validateEndpointInput body = none →
      o.getOutcome = .error e →
      (createEndpointHandler cfg o t).1.statusCode = 500 ∧
      (createEndpointHandler cfg o t).1.body = .pyDict [("error", .pyStr e)]) ∧
    (∀ (o : DeleteEndpointOracle) (t : Table) (n e : String),
      o.endpointName = some n → n ≠ "" → o.getOutcome = .error e →
      (deleteEndpointHandler o t).1.statusCode = 500 ∧
      (deleteEndpointHandler o t).1.body = .pyDict [("error", .pyStr e)]) := by
  refine ⟨?_, ?_, ?_, ?_, ?_, ?_, ?_⟩
  · intro cfg o t
    simp only [submitJobHandler, createJob, updateJobStatus]
    repeat' split
    all_goals rfl
  · intro o t
    simp only [getJobStatusHandler, getJob]
    repeat' split
    all_goals rfl
  · intro cfg o t
    simp only [createEndpointHandler, createEndpoint, getEndpoint,
      updateEndpointStatus]
    repeat' split
    all_goals rfl
  · intro o t
    simp only [deleteEndpointHandler, getEndpoint, deleteEndpoint]
    repeat' split
    all_goals rfl
  · intro o t
    simp only [getEndpointStatusHandler, listAllEndpointsBranch, listEndpoints,
      getEndpoint]
    repeat' split
    all_goals rfl
  · intro cfg o t body e hparse hvalid hgete
    have hrun : createEndpointHandler cfg o t
        = (mkEndpointResponse 500 (.pyDict [("error", .pyStr e)]), t, false) := by
      rw [createEndpointHandler, hparse]
      simp only [hvalid, getEndpoint, hgete]
    rw [hrun]
    exact ⟨rfl, rfl⟩
  · intro o t n e hname hne hgete
    have hrun : deleteEndpointHandler o t
        = (mkEndpointResponse 500 (.pyDict [("error", .pyStr e)]), t, []) := by
      rw [deleteEndpointHandler, hname]
      simp only [if_neg hne, getEndpoint, hgete]
    rw [hrun]
    exact ⟨rfl, rfl⟩

/-- Witness for C8: each conjunct applied at a concrete input — malformed
JSON for the job handlers, and a raising `get_endpoint` for the two
endpoint handlers with uncaught inner reads. -/
theorem allHandlers_cors_and_top_level_catch_witness :
    headerValue (submitJobHandler ⟨"ml-platform-bucket", "ml-jobs"⟩
        ⟨.error (), "", 0, .ok (), none, .ok ()⟩ []).1
      "Access-Control-Allow-Origin" = some "*" ∧
    headerValue (getJobStatusHandler ⟨none, .ok ()⟩ [])
      "Access-Control-Allow-Origin" = some "*" ∧
    headerValue (createEndpointHandler
        ⟨"ml-platform-bucket", "my-alb.amazonaws.com", "training-cluster"⟩
        ⟨.error (), .ok (), true, 0, .ok (), none, false, .ok ()⟩ []).1
      "Access-Control-Allow-Origin" = some "*" ∧
    headerValue (deleteEndpointHandler
        ⟨none, .ok (), ⟨true, .ok (), .ok ()⟩, .ok ()⟩ []).1
      "Access-Control-Allow-Origin" = some "*" ∧
    headerValue (getEndpointStatusHandler ⟨none, .ok (), .ok ()⟩ [])
      "Access-Control-Allow-Origin" = some "*" ∧
    ((createEndpointHandler
        ⟨"ml-platform-bucket", "my-alb.amazonaws.com", "training-cluster"⟩
        ⟨.ok ⟨some "e1", some "job-aaaaaaaa", none⟩,
         .error "dynamodb unavailable", true, 0, .ok (), none, false, .ok ()⟩
        []).1.statusCode = 500 ∧
     (createEndpointHandler
        ⟨"ml-platform-bucket", "my-alb.amazonaws.com", "training-cluster"⟩
        ⟨.ok ⟨some "e1", some "job-aaaaaaaa", none⟩,
         .error "dynamodb unavailable", true, 0, .ok (), none, false, .ok ()⟩
        []).1.body = .pyDict [("error", .pyStr "dynamodb unavailable")]) ∧
    ((deleteEndpointHandler
        ⟨some "e1", .error "dynamodb unavailable", ⟨true, .ok (), .ok ()⟩, .ok ()⟩
        []).1.statusCode = 500 ∧
     (deleteEndpointHandler
        ⟨some "e1", .error "dynamodb unavailable", ⟨true, .ok (), .ok ()⟩, .ok ()⟩
        []).1.body = .pyDict [("error", .pyStr "dynamodb unavailable")]) :=
  ⟨allHandlers_cors_and_top_level_catch.1 _ _ _,
   allHandlers_cors_and_top_level_catch.2.1 _ _,
   allHandlers_cors_and_top_level_catch.2.2.1 _ _ _,
   allHandlers_cors_and_top_level_catch.2.2.2.1 _ _,
   allHandlers_cors_and_top_level_catch.2.2.2.2.1 _ _,
   allHandlers_cors_and_top_level_catch.2.2.2.2.2.1 _ _ _ _ _ rfl rfl rfl,
   allHandlers_cors_and_top_level_catch.2.2.2.2.2.2
     ⟨some "e1", .error "dynamodb unavailable", ⟨true, .ok (), .ok ()⟩, .ok ()⟩
     [] "e1" "dynamodb unavailable" rfl (by decide) rfl⟩

end SagemakerClone
